import Mathlib

/-!
# Verification of the globalISBNfinder adapter system

A shallow embedding of `src/lib/adapter-system.js` (the `AdapterSystem`
class: source matching, per-source rate limiting, the three-stage
availability classifier) and of the `/api/check-availability` batch
endpoint of the server file.

Modelling conventions:

* JavaScript strings are Lean `String`s; the handful of string builtins
  the code uses (`includes`, `toLowerCase`, `split`, `trim`,
  first-occurrence `replace`) are re-implemented over `List Char` so that
  every definition is kernel-computable.
* JavaScript `Map`s (the adapter registry, the rate-limit table) are
  association lists in insertion order, matching `Map` iteration order.
* Confidence values are represented in tenths as an `Int`: the literal
  `0.8` of the source is `8`, the `> 0.5` promotion threshold is `> 5`, and
  `Math.min(0.7, score * 0.2)` is `min 7 (score * 2)`.  Every confidence
  constant in the source is an exact multiple of 0.1 and every comparison
  the code performs is between such multiples, so this scaling is exact.
* Timestamps (`Date.now()`) are an `Int` number of milliseconds supplied
  explicitly; a whole call to `checkBookAvailability` is modelled at one
  instant `now`.
* External builtins with no string-level semantics in the repository —
  the regex engine (`RegExp.test` / `String.match` of a selector
  pattern), `new URL(...).hostname`, the JSON-LD `<script>` block
  matcher, the tag-stripping `replace` chain and `JSON.parse` — are
  supplied as an explicit environment `JsEnv` of oracle functions.
* Fields of a JavaScript object that a given code path may *omit*
  (as opposed to setting them to `null`) are `Option`-valued, with
  `none` meaning "property absent" and `some JVal.jnull` meaning
  "property present with value `null`".
* The network fetch is an I/O boundary: its outcome (response body, or a
  thrown error message) is passed in as a `FetchOutcome`.
-/

/-- JavaScript value stored in an optional result field: a string, a
number, or the explicit `null`. -/
inductive JVal where
  | str : String → JVal
  | num : Int → JVal
  | jnull : JVal
deriving DecidableEq, Repr

/-- `a.isPrefixOf b` over char lists, kernel-computable. -/
def charsStartsWith : List Char → List Char → Bool
  | [], _ => true
  | _ :: _, [] => false
  | a :: as, b :: bs => a = b && charsStartsWith as bs

/-- Does `sub` occur as a contiguous run inside `s`?  (Char-list core of
JavaScript `String.prototype.includes`.) -/
def charsContains (sub : List Char) : List Char → Bool
  | [] => charsStartsWith sub []
  | c :: rest => charsStartsWith sub (c :: rest) || charsContains sub rest

/-- JavaScript `s.includes(sub)`. -/
def jsIncludes (s sub : String) : Bool :=
  charsContains sub.data s.data

/-- JavaScript `s.toLowerCase()` (ASCII case folding, which covers all
adapter names and keywords of the source). -/
def jsToLower (s : String) : String :=
  ⟨s.data.map Char.toLower⟩

/-- Split a char list on a single separator character, JavaScript
`split` semantics (empty pieces are kept; the empty string yields one
empty piece). -/
def charsSplit (sep : Char) : List Char → List (List Char)
  | [] => [[]]
  | c :: rest =>
    match charsSplit sep rest with
    | [] => [[]]
    | h :: t => if c = sep then [] :: h :: t else (c :: h) :: t

/-- JavaScript `s.split(sep)` for a one-character separator (the source
only splits on the space and the comma). -/
def jsSplit (s : String) (sep : Char) : List String :=
  (charsSplit sep s.data).map fun l => ⟨l⟩

/-- JavaScript `s.trim()` (whitespace stripped from both ends). -/
def jsTrim (s : String) : String :=
  ⟨((s.data.dropWhile Char.isWhitespace).reverse.dropWhile Char.isWhitespace).reverse⟩

/-- JavaScript `s.length` (the source only compares lengths of ASCII
name tokens, where code-point count and UTF-16 length agree). -/
def jsLength (s : String) : Nat := s.data.length

/-- First-occurrence-only `s.replace(pat, rep)` over char lists: the
JavaScript string-pattern `replace`, which substitutes only the first
match (the empty pattern matches at position 0). -/
def charsReplaceFirst (pat rep : List Char) : List Char → List Char
  | [] => if charsStartsWith pat [] then rep else []
  | c :: rest =>
    if charsStartsWith pat (c :: rest) then rep ++ (c :: rest).drop pat.length
    else c :: charsReplaceFirst pat rep rest

/-- JavaScript `s.replace(pat, rep)` with a string pattern. -/
def jsReplaceFirst (s pat rep : String) : String :=
  ⟨charsReplaceFirst pat.data rep.data s.data⟩

/-- JavaScript `x || d` for an optional number (`undefined` and `0` are
falsy). -/
def jsOrNat (x : Option Nat) (d : Nat) : Nat :=
  match x with
  | some v => if v = 0 then d else v
  | none => d

/-- JavaScript truthiness test for an optional string (`undefined` and
the empty string are falsy); returns the string exactly when truthy. -/
def jsTruthyStr (x : Option String) : Option String :=
  match x with
  | some s => if s = "" then none else some s
  | none => none

/-- JavaScript `x || y` for optional strings (the empty string is falsy,
so a present empty string falls through to `y`), as in
`data.offers?.availability || data.availability`. -/
def jsStrOr (x y : Option String) : Option String :=
  match x with
  | some s => if s = "" then y else some s
  | none => y

/-- JavaScript `x || y` for optional `JVal`s (zero, the empty string and
`null` are falsy), as in `data.offers?.price || data.price`. -/
def jsJValOr (x y : Option JVal) : Option JVal :=
  match x with
  | some (JVal.str s) => if s = "" then y else some (JVal.str s)
  | some (JVal.num n) => if n = 0 then y else some (JVal.num n)
  | some JVal.jnull => y
  | none => y

/-- Template-literal interpolation of a possibly-undefined value:
JavaScript prints `undefined` into the string. -/
def jsTemplate (x : Option String) : String :=
  match x with
  | some s => s
  | none => "undefined"

/-- `Map.prototype.get` on an insertion-ordered association list. -/
def jsMapGet {α : Type} (m : List (String × α)) (k : String) : Option α :=
  (m.find? fun p => p.1 = k).map Prod.snd

/-- `Map.prototype.set`: overwrite the binding of the key in place if it
exists (keys of a `Map` are unique, so it occurs at most once), else
append; insertion order is preserved either way. -/
def jsMapSet {α : Type} (m : List (String × α)) (k : String) (v : α) :
    List (String × α) :=
  match m with
  | [] => [(k, v)]
  | p :: rest => if p.1 = k then (k, v) :: rest else p :: jsMapSet rest k v

/-- `structured_data:` block of an adapter YAML config. -/
structure StructuredDataFlags where
  schema_org : Bool
  json_ld : Bool
deriving DecidableEq, Repr

/-- `selectors:` block of an adapter config: comma-separated regex
pattern lists. -/
structure SelectorConfig where
  available : Option String
  unavailable : Option String
deriving DecidableEq, Repr

/-- A pair of keyword lists, used both for `fallback_keywords:` and for
`status_keywords:`. -/
structure KeywordConfig where
  available : Option (List String)
  unavailable : Option (List String)
deriving DecidableEq, Repr

/-- One adapter configuration record (a loaded YAML file), the
`SourceConfig` of the spec.  `loadAdapters` itself is file I/O and out of
scope; the registry is an input to the model. -/
structure Adapter where
  name : String
  base_url : Option String
  search_endpoint : String
  method : String
  structured_data : Option StructuredDataFlags
  selectors : Option SelectorConfig
  fallback_keywords : Option KeywordConfig
  status_keywords : Option KeywordConfig
  rate_limit : Option Nat
deriving DecidableEq, Repr

/-- `adapter.structured_data?.schema_org`. -/
def sdSchemaOrg (a : Adapter) : Bool :=
  match a.structured_data with
  | some sd => sd.schema_org
  | none => false

/-- `adapter.structured_data?.json_ld`. -/
def sdJsonLd (a : Adapter) : Bool :=
  match a.structured_data with
  | some sd => sd.json_ld
  | none => false

/-- `adapter.status_keywords?.available || []` (note a JavaScript array,
even empty, is truthy, so a present list is kept as-is). -/
def statusAvailableKw (a : Adapter) : List String :=
  match a.status_keywords with
  | some kc => kc.available.getD []
  | none => []

/-- `adapter.status_keywords?.unavailable || []`. -/
def statusUnavailableKw (a : Adapter) : List String :=
  match a.status_keywords with
  | some kc => kc.unavailable.getD []
  | none => []

/-- `adapter.fallback_keywords?.available || []`. -/
def fallbackAvailableKw (a : Adapter) : List String :=
  match a.fallback_keywords with
  | some kc => kc.available.getD []
  | none => []

/-- `adapter.fallback_keywords?.unavailable || []`. -/
def fallbackUnavailableKw (a : Adapter) : List String :=
  match a.fallback_keywords with
  | some kc => kc.unavailable.getD []
  | none => []

/-- A point-of-interest passed to `checkBookAvailability` (`place`). -/
structure Place where
  name : String
  vicinity : Option String
  website : Option String
deriving DecidableEq, Repr

/-- The `offers` object of a parsed JSON-LD block. -/
structure JsonOffers where
  availability : Option String
  price : Option JVal
deriving DecidableEq, Repr

/-- A parsed JSON-LD object, restricted to the properties
`extractFromStructuredData` reads (`@type`, `offers.availability`,
`offers.price`, `availability`, `price`). -/
structure JsonData where
  atType : Option String
  offers : Option JsonOffers
  availability : Option String
  price : Option JVal
deriving DecidableEq, Repr

/-- Return value of `classifyAvailability`: `{status, copies,
confidence}` (confidence in tenths). -/
structure ClassifyResult where
  status : String
  copies : Nat
  confidence : Int
deriving DecidableEq, Repr

/-- Return value of `classifyByKeywords`: `{status, confidence}`
(confidence in tenths). -/
structure KeywordResult where
  status : String
  confidence : Int
deriving DecidableEq, Repr

/-- An intermediate parse-result object (returned by `parseHTML`,
`parseStructuredData` and `extractFromStructuredData`).  Each field that
some constructor site omits is `Option`-valued with `none` = "property
absent"; `confidence` is present in every literal the source builds. -/
structure ParseResult where
  status : Option String
  copies_available : Option Nat
  price : Option JVal
  branch : Option JVal
  call_number : Option JVal
  url : Option JVal
  confidence : Int
deriving DecidableEq, Repr

/-- The final per-location record assembled by `checkBookAvailability`
(and by the rejected-promise branch of the batch endpoint).  `isbn`, `source`,
`last_checked` and `confidence` are set by every construction site in
the source, so they are plain fields; the rest may be absent. -/
structure AvailabilityResult where
  isbn : String
  source : String
  status : Option String
  copies_available : Option Nat
  price : Option JVal
  branch : Option JVal
  call_number : Option JVal
  url : Option JVal
  last_checked : Int
  confidence : Int
  error : Option String
deriving DecidableEq, Repr

/-- Mutable state of the `AdapterSystem` instance: the adapter registry
`Map` (fixed after load) and the rate-limit timestamp `Map`. -/
structure SysState where
  adapters : List (String × Adapter)
  rateLimits : List (String × Int)
deriving DecidableEq, Repr

/-- Outcome of the `fetch`-and-read-body step of `scrapeAvailability`:
either the response text, or the message of the error thrown inside the
`try` (timeout, non-2xx, transport failure). -/
inductive FetchOutcome where
  | success : String → FetchOutcome
  | failure : String → FetchOutcome
deriving DecidableEq, Repr

/-- Oracle environment for the JavaScript builtins the source leans on:
`regexTest pat s` is the global case-insensitive regex match (also used
for the case-insensitive library patterns, whose source text is passed
as the first argument); `urlHostname` is `new URL(u).hostname` with
`none` for a thrown `TypeError`; `matchJsonLd` is
`html.match(/<script type=json-ld.../gs)` (`none` for a `null` match);
`stripLd` is the tag-stripping `replace` chain; `jsonParse` is
`JSON.parse` projected onto the properties the code reads, with `none`
for a parse error. -/
structure JsEnv where
  regexTest : String → String → Bool
  urlHostname : String → Option String
  matchJsonLd : String → Option (List String)
  stripLd : String → String
  jsonParse : String → Option JsonData

/-- `classifyAvailability(availability, adapter)` (lines 391-410): match
the structured-data availability string, lower-cased, against the
configured available keyword list first, then the unavailable list; the
loops return on the first hit, and every hit in one loop returns the
same record, so each loop is a `List.any`. -/
def classifyAvailability (availability : String) (adapter : Adapter) :
    ClassifyResult :=
  let availabilityLower := jsToLower availability
  if (statusAvailableKw adapter).any
      (fun kw => jsIncludes availabilityLower (jsToLower kw)) then
    { status := "available", copies := 1, confidence := 8 }
  else if (statusUnavailableKw adapter).any
      (fun kw => jsIncludes availabilityLower (jsToLower kw)) then
    { status := "unavailable", copies := 0, confidence := 8 }
  else
    { status := "unknown", copies := 0, confidence := 3 }

/-- `classifyByKeywords(html, adapter)` (lines 355-389): one point per
configured keyword-list entry whose keyword occurs in the lower-cased
page text. -/
def classifyByKeywords (html : String) (adapter : Adapter) :
    KeywordResult :=
  let text := jsToLower html
  let availableScore : Nat :=
    ((fallbackAvailableKw adapter).filter
      (fun kw => jsIncludes text (jsToLower kw))).length
  let unavailableScore : Nat :=
    ((fallbackUnavailableKw adapter).filter
      (fun kw => jsIncludes text (jsToLower kw))).length
  if availableScore > unavailableScore ∧ availableScore > 0 then
    { status := "available",
      confidence := min 7 ((availableScore : Int) * 2) }
  else if unavailableScore > availableScore ∧ unavailableScore > 0 then
    { status := "unavailable",
      confidence := min 7 ((unavailableScore : Int) * 2) }
  else
    { status := "unknown", confidence := 0 }

/-- The `{ confidence: 0 }` literal returned by `parseStructuredData`
and `extractFromStructuredData` when nothing qualifies: every other
property is absent. -/
def emptyConfResult : ParseResult :=
  { status := none, copies_available := none, price := none,
    branch := none, call_number := none, url := none, confidence := 0 }

/-- `extractFromStructuredData(data, adapter)` (lines 260-278).  Note
the success branch builds an object with only `status`,
`copies_available`, `price` and `confidence` — no `branch`,
`call_number` or `url`. -/
def extractFromStructuredData (data : JsonData) (adapter : Adapter) :
    ParseResult :=
  if data.atType = some "Book" ∨ data.atType = some "Product" then
    let availability :=
      jsStrOr (data.offers.bind (fun o => o.availability)) data.availability
    let price := jsJValOr (data.offers.bind (fun o => o.price)) data.price
    match jsTruthyStr availability with
    | some av =>
      let st := classifyAvailability av adapter
      { status := some st.status,
        copies_available := some (jsOrNat (some st.copies) 0),
        price := jsJValOr price (some JVal.jnull),
        branch := none, call_number := none, url := none,
        confidence := st.confidence }
    | none => emptyConfResult
  else emptyConfResult

/-- The loop over matched JSON-LD blocks inside `parseStructuredData`:
strip the script tags, `JSON.parse` (a failure just moves on), and
return the first extraction whose confidence beats 0.5. -/
def jsonLdLoop (env : JsEnv) (adapter : Adapter) :
    List String → ParseResult
  | [] => emptyConfResult
  | b :: rest =>
    match env.jsonParse (env.stripLd b) with
    | some d =>
      let r := extractFromStructuredData d adapter
      if r.confidence > 5 then r else jsonLdLoop env adapter rest
    | none => jsonLdLoop env adapter rest

/-- `parseStructuredData(html, adapter)` (lines 238-258).  A non-`null`
match array (even an empty one) is truthy and enters the loop. -/
def parseStructuredData (env : JsEnv) (html : String) (adapter : Adapter) :
    ParseResult :=
  if sdJsonLd adapter then
    match env.matchJsonLd html with
    | some blocks => jsonLdLoop env adapter blocks
    | none => emptyConfResult
  else emptyConfResult

/-- The initial `result` object of `parseHTML` (lines 284-292): every
field present, absent data as explicit `null`s. -/
def initialHTMLResult (url : String) : ParseResult :=
  { status := some "unknown", copies_available := some 0,
    price := some JVal.jnull, branch := some JVal.jnull,
    call_number := some JVal.jnull, url := some (JVal.str url),
    confidence := 0 }

/-- Split a comma-separated selector string into trimmed patterns, as
the comma-split-and-trim chain over `adapter.selectors.available`. -/
def selectorPatterns (s : String) : List String :=
  (jsSplit s ',').map jsTrim

/-- The available-selector block of `parseHTML` (lines 295-308): the
loop breaks on the first matching pattern, and every match writes the
same three fields, so it is a `List.any`. -/
def availableCheck (env : JsEnv) (adapter : Adapter) (html : String)
    (r : ParseResult) : ParseResult :=
  match jsTruthyStr (adapter.selectors.bind (fun s => s.available)) with
  | some sel =>
    if (selectorPatterns sel).any (fun p => env.regexTest p html) then
      { r with status := some "available", confidence := 8,
               copies_available := some 1 }
    else r
  | none => r

/-- The unavailable-selector block of `parseHTML` (lines 310-322): runs
unconditionally after the available block and overwrites `status` and
`confidence` only. -/
def unavailableCheck (env : JsEnv) (adapter : Adapter) (html : String)
    (r : ParseResult) : ParseResult :=
  match jsTruthyStr (adapter.selectors.bind (fun s => s.unavailable)) with
  | some sel =>
    if (selectorPatterns sel).any (fun p => env.regexTest p html) then
      { r with status := some "unavailable", confidence := 8 }
    else r
  | none => r

/-- The hard-coded Hamilton Public Library branch of `parseHTML`
(lines 325-338): case-sensitive `String.includes` literals, keyed on the
exact adapter name. -/
def hplCheck (adapter : Adapter) (html : String) (r : ParseResult) :
    ParseResult :=
  if adapter.name = "Hamilton Public Library" then
    if jsIncludes html "Available" && jsIncludes html "Book" &&
        jsIncludes html "Visit" then
      { r with status := some "available", confidence := 9,
               copies_available := some 1 }
    else if jsIncludes html "All copies in use" ||
        jsIncludes html "Checked Out" then
      { r with status := some "unavailable", confidence := 9 }
    else r
  else r

/-- The keyword-classification fallback of `parseHTML` (lines 340-349):
only entered below the 0.5 threshold, and applied only when it beats the
current confidence; it writes `status` and `confidence` only. -/
def keywordFallback (adapter : Adapter) (html : String) (r : ParseResult) :
    ParseResult :=
  if r.confidence < 5 then
    let keywordResult := classifyByKeywords html adapter
    if keywordResult.confidence > r.confidence then
      { r with status := some keywordResult.status,
               confidence := keywordResult.confidence }
    else r
  else r

/-- `parseHTML(html, adapter, url)` (lines 280-353): the initial record
threaded through the four sequential mutation blocks. -/
def parseHTML (env : JsEnv) (html : String) (adapter : Adapter)
    (url : String) : ParseResult :=
  keywordFallback adapter html
    (hplCheck adapter html
      (unavailableCheck env adapter html
        (availableCheck env adapter html (initialHTMLResult url))))

/-- `parseAvailability(adapter, html, url)` (lines 218-236): structured
data first when the adapter declares it, kept only above the 0.5
threshold, else the HTML pipeline. -/
def parseAvailability (env : JsEnv) (adapter : Adapter) (html : String)
    (url : String) : ParseResult :=
  if sdSchemaOrg adapter || sdJsonLd adapter then
    let structuredResult := parseStructuredData env html adapter
    if structuredResult.confidence > 5 then structuredResult
    else parseHTML env html adapter url
  else parseHTML env html adapter url

/-- The rate-limit window in milliseconds for a named adapter:
`(adapter?.rate_limit || 1) * 1000` after `this.adapters.get(name)`. -/
def rateLimitMs (adapters : List (String × Adapter)) (adapterName : String) :
    Int :=
  (jsOrNat ((jsMapGet adapters adapterName).bind (fun a => a.rate_limit)) 1
    : Int) * 1000

/-- `isRateLimited(adapterName)` (lines 412-420).  The guard
`if (!lastRequest) return false` tests JS falsiness: it fires both when
no timestamp is stored and when the stored timestamp is exactly 0 (the
epoch instant), so a zero timestamp also reads as "not limited". -/
def isRateLimited (sys : SysState) (adapterName : String) (now : Int) :
    Bool :=
  match jsMapGet sys.rateLimits adapterName with
  | none => false
  | some lastRequest =>
    if lastRequest = 0 then false
    else now - lastRequest < rateLimitMs sys.adapters adapterName

/-- `updateRateLimit(adapterName)` (lines 422-424). -/
def updateRateLimit (sys : SysState) (adapterName : String) (now : Int) :
    SysState :=
  { sys with rateLimits := jsMapSet sys.rateLimits adapterName now }

/-- Rule 1 of the matcher: case-insensitive direct name containment in
either direction (line 111). -/
def directNameMatch (place : Place) (adapterKey : String) : Bool :=
  let placeName := jsToLower place.name
  let adapterName := jsToLower adapterKey
  jsIncludes placeName adapterName || jsIncludes adapterName placeName

/-- Rule 2 of the matcher: at least one whitespace token of the adapter
name longer than 3 characters occurs in the place name or vicinity
(lines 117-124). -/
def keyTermMatch (place : Place) (adapterKey : String) : Bool :=
  let placeName := jsToLower place.name
  let placeVicinity := jsToLower ((jsTruthyStr place.vicinity).getD "")
  let keyTerms := (jsSplit (jsToLower adapterKey) ' ').filter
    (fun term => jsLength term > 3)
  (keyTerms.filter
    (fun term => jsIncludes placeName term || jsIncludes placeVicinity term)
    ).length ≥ 1

/-- The single registry pass of `findAdapter` (lines 107-126): each
entry is tested under rule 1 then rule 2, and the first entry matching
either rule is returned. -/
def nameLoop (place : Place) : List (String × Adapter) → Option Adapter
  | [] => none
  | (key, adapter) :: rest =>
    if directNameMatch place key then some adapter
    else if keyTermMatch place key then some adapter
    else nameLoop place rest

/-- The domain loop of `findAdapter` (lines 132-140); `Except.error`
models a `TypeError` thrown by `new URL(adapter.base_url)`, which aborts
the whole loop into the enclosing `catch`. -/
def domainLoop (env : JsEnv) (domain : String) :
    List (String × Adapter) → Except Unit (Option Adapter)
  | [] => Except.ok none
  | (_, adapter) :: rest =>
    match jsTruthyStr adapter.base_url with
    | some bu =>
      match env.urlHostname bu with
      | none => Except.error ()
      | some adapterDomain =>
        if jsIncludes domain adapterDomain ||
            jsIncludes adapterDomain domain then
          Except.ok (some adapter)
        else domainLoop env domain rest
    | none => domainLoop env domain rest

/-- The website-domain stage of `findAdapter` (lines 129-144): a thrown
URL parse (of the place website or of any adapter base URL) is caught
and matching falls through to the pattern table. -/
def domainStage (env : JsEnv) (adapters : List (String × Adapter))
    (place : Place) : Option Adapter :=
  match jsTruthyStr place.website with
  | some w =>
    match env.urlHostname w with
    | none => none
    | some domain =>
      match domainLoop env domain adapters with
      | Except.ok r => r
      | Except.error _ => none
  | none => none

/-- The fixed `libraryPatterns` table (lines 147-154), each regex kept
as its source text for the oracle. -/
def libraryPatterns : List (String × String) :=
  [("public library", "Toronto Public Library"),
   ("hamilton.*library", "Hamilton Public Library"),
   ("university.*library", "University of Toronto Library"),
   ("york.*library", "York University Library"),
   ("indigo|chapters", "Indigo/Chapters"),
   ("amazon", "Amazon Canada")]

/-- The pattern-table stage of `findAdapter` (lines 156-161): the first
matching pattern returns `this.adapters.get(name)` immediately, even
when that lookup misses. -/
def patternStage (env : JsEnv) (adapters : List (String × Adapter))
    (place : Place) : Option Adapter :=
  let placeName := jsToLower place.name
  let placeVicinity := jsToLower ((jsTruthyStr place.vicinity).getD "")
  match libraryPatterns.find?
      (fun pr => env.regexTest pr.1 placeName ||
                 env.regexTest pr.1 placeVicinity) with
  | some pr => jsMapGet adapters pr.2
  | none => none

/-- `findAdapter(place)` (lines 100-165). -/
def findAdapter (env : JsEnv) (adapters : List (String × Adapter))
    (place : Place) : Option Adapter :=
  match nameLoop place adapters with
  | some a => some a
  | none =>
    match domainStage env adapters place with
    | some a => some a
    | none => patternStage env adapters place

/-- The search URL built by `scrapeAvailability` (line 168): the base
URL concatenated with the endpoint template, whose placeholder
`"{isbn}"` is substituted by the ISBN. -/
def searchUrl (adapter : Adapter) (isbn : String) : String :=
  jsTemplate adapter.base_url ++ jsReplaceFirst adapter.search_endpoint "{isbn}" isbn

/-- `checkBookAvailability(place, isbn)` (lines 35-98) together with the
body of `scrapeAvailability` (lines 167-216), at a single instant `now`
with the fetch outcome supplied.  Returns the result record and the
updated system state; only a successful fetch touches the rate-limit
table.  The thrown scrape error is rewrapped as
`Scraping failed: <msg>` before the catch block stores it. -/
def checkBookAvailability (env : JsEnv) (sys : SysState) (place : Place)
    (isbn : String) (outcome : FetchOutcome) (now : Int) :
    AvailabilityResult × SysState :=
  match findAdapter env sys.adapters place with
  | none =>
    ({ isbn := isbn, source := place.name, status := some "unknown",
       copies_available := some 0, price := some JVal.jnull,
       branch := some JVal.jnull, call_number := some JVal.jnull,
       url := some JVal.jnull, last_checked := now, confidence := 0,
       error := some "No adapter found for this location" }, sys)
  | some adapter =>
    if isRateLimited sys adapter.name now then
      ({ isbn := isbn, source := place.name, status := some "rate_limited",
         copies_available := some 0, price := some JVal.jnull,
         branch := some JVal.jnull, call_number := some JVal.jnull,
         url := some JVal.jnull, last_checked := now, confidence := 0,
         error := some "Rate limited - please try again later" }, sys)
    else
      match outcome with
      | FetchOutcome.success html =>
        let result := parseAvailability env adapter html
          (searchUrl adapter isbn)
        ({ isbn := isbn, source := adapter.name, status := result.status,
           copies_available := result.copies_available,
           price := result.price, branch := result.branch,
           call_number := result.call_number, url := result.url,
           last_checked := now, confidence := result.confidence,
           error := none }, updateRateLimit sys adapter.name now)
      | FetchOutcome.failure msg =>
        ({ isbn := isbn, source := place.name, status := some "error",
           copies_available := some 0, price := some JVal.jnull,
           branch := some JVal.jnull, call_number := some JVal.jnull,
           url := some JVal.jnull, last_checked := now, confidence := 0,
           error := some ("Scraping failed: " ++ msg) }, sys)

/-- One settled promise of the `Promise.allSettled` call of the batch
endpoint. -/
inductive SettledOutcome where
  | fulfilled : AvailabilityResult → SettledOutcome
  | rejected : String → SettledOutcome
deriving DecidableEq, Repr

/-- The per-index mapping of the batch endpoint (server lines: the
`availabilityResults.map((result, index) => ...)` block): a fulfilled
promise passes its value through; a rejected one becomes an
error-status record built from `places[index].name` and
`result.reason.message`. -/
def settleResult (isbn : String) (place : Place) (now : Int) :
    SettledOutcome → AvailabilityResult
  | SettledOutcome.fulfilled v => v
  | SettledOutcome.rejected msg =>
    { isbn := isbn, source := place.name, status := some "error",
      copies_available := some 0, price := some JVal.jnull,
      branch := some JVal.jnull, call_number := some JVal.jnull,
      url := some JVal.jnull, last_checked := now, confidence := 0,
      error := some msg }

/-- The `BatchReport` JSON body of `/api/check-availability`. -/
structure BatchReport where
  isbn : String
  results : List AvailabilityResult
  total_checked : Nat
  available_count : Nat
  timestamp : Int
deriving DecidableEq, Repr

/-- Assembly of the batch response from the settled promises (the map
walks the outcomes with their index into `places`; the two lists have
equal length by construction, so they are zipped here). -/
def assembleBatch (isbn : String) (places : List Place)
    (outcomes : List SettledOutcome) (now : Int) : BatchReport :=
  let results := (places.zip outcomes).map
    (fun pr => settleResult isbn pr.1 now pr.2)
  { isbn := isbn, results := results, total_checked := results.length,
    available_count :=
      (results.filter (fun r => r.status = some "available")).length,
    timestamp := now }

/-- The whole `/api/check-availability` handler over a shared initial
state: the check of every location is dispatched concurrently against
the same pre-batch system state (the per-location fetch outcome is
supplied per check), and the modelled `checkBookAvailability` is total,
so each promise fulfills. -/
def checkAvailabilityBatch (env : JsEnv) (sys : SysState) (isbn : String)
    (checks : List (Place × FetchOutcome)) (now : Int) : BatchReport :=
  assembleBatch isbn (checks.map Prod.fst)
    (checks.map (fun c =>
      SettledOutcome.fulfilled
        (checkBookAvailability env sys c.1 isbn c.2 now).1))
    now

/-- The statuses the HTML/structured classifier stages can produce. -/
def GoodParseStatus (s : Option String) : Prop :=
  s = some "available" ∨ s = some "unavailable" ∨ s = some "unknown"

/-- The full `AvailabilityResult` status enumeration of the spec. -/
def GoodStatus (s : Option String) : Prop :=
  GoodParseStatus s ∨ s = some "rate_limited" ∨ s = some "error"

/-- All optional properties of a parse-result object are present. -/
def prHasAllFields (r : ParseResult) : Bool :=
  r.status.isSome && r.copies_available.isSome && r.price.isSome &&
    r.branch.isSome && r.call_number.isSome && r.url.isSome

/-- The optional properties every construction site of the source sets
(`status`, `copies_available`, `price`); `isbn`, `source`,
`last_checked` and `confidence` are plain fields of the model because
every site sets them. -/
def hasCoreFields (r : AvailabilityResult) : Bool :=
  r.status.isSome && r.copies_available.isSome && r.price.isSome

/-- All ten spec fields of an `AvailabilityResult` are present
(absent data would be an explicit `null`, not a missing property). -/
def hasAllFields (r : AvailabilityResult) : Bool :=
  hasCoreFields r && r.branch.isSome && r.call_number.isSome && r.url.isSome

/-- Invariant carried through the `parseHTML` mutation chain. -/
def ParseInv (r : ParseResult) : Prop :=
  GoodParseStatus r.status ∧ 0 ≤ r.confidence ∧ r.confidence ≤ 10 ∧
    prHasAllFields r = true

/-- Does a call to `checkBookAvailability` reach the fetch and then take
the structured-data branch of `parseAvailability` (its confidence beat
the 0.5 threshold)?  This is exactly the condition under which the
returned record is built from the `extractFromStructuredData` object. -/
def structuredTaken (env : JsEnv) (sys : SysState) (place : Place)
    (outcome : FetchOutcome) (now : Int) : Bool :=
  match findAdapter env sys.adapters place with
  | none => false
  | some adapter =>
    if isRateLimited sys adapter.name now then false
    else
      match outcome with
      | FetchOutcome.failure _ => false
      | FetchOutcome.success html =>
        (sdSchemaOrg adapter || sdJsonLd adapter) &&
          decide ((parseStructuredData env html adapter).confidence > 5)

/-- An oracle environment whose page holds a single JSON-LD block typed
`Book` with availability `InStock`; every other builtin is inert. -/
def envStructured : JsEnv :=
  { regexTest := fun _ _ => false, urlHostname := fun _ => none,
    matchJsonLd := fun _ => some ["block"], stripLd := fun b => b,
    jsonParse := fun _ => some
      { atType := some "Book", offers := none,
        availability := some "InStock", price := none } }

/-- A JSON-LD-enabled adapter whose available status keyword list holds
`instock`. -/
def adapterStructured : Adapter :=
  { name := "Sample Store", base_url := some "https://sample.example",
    search_endpoint := "/search?isbn={isbn}", method := "GET",
    structured_data := some { schema_org := false, json_ld := true },
    selectors := none, fallback_keywords := none,
    status_keywords := some
      { available := some ["instock"], unavailable := some [] },
    rate_limit := some 1 }

def sysStructured : SysState :=
  { adapters := [("Sample Store", adapterStructured)], rateLimits := [] }

def placeStructured : Place :=
  { name := "Sample Store", vicinity := none, website := none }

/-- An oracle environment whose regex engine matches every pattern and
whose other builtins are inert. -/
def envAllMatch : JsEnv :=
  { regexTest := fun _ _ => true, urlHostname := fun _ => none,
    matchJsonLd := fun _ => none, stripLd := fun b => b,
    jsonParse := fun _ => none }

/-- An adapter with one available and one unavailable selector pattern. -/
def adapterSelectors : Adapter :=
  { name := "Selector Store", base_url := some "https://sel.example",
    search_endpoint := "/s?q={isbn}", method := "GET",
    structured_data := none,
    selectors := some
      { available := some "On Shelf", unavailable := some "Checked Out" },
    fallback_keywords := none, status_keywords := none, rate_limit := none }

/-- The JSON-LD object that the parser of `envStructured` yields. -/
def dataBook : JsonData :=
  { atType := some "Book", offers := none,
    availability := some "InStock", price := none }

/-- A `Book` object whose availability string matches no configured
status keyword. -/
def dataBack : JsonData :=
  { atType := some "Book", offers := none,
    availability := some "Backordered", price := none }

/-- `envStructured` with the parsed block replaced by `dataBack`. -/
def envStructured2 : JsEnv :=
  { regexTest := fun _ _ => false, urlHostname := fun _ => none,
    matchJsonLd := fun _ => some ["block"], stripLd := fun b => b,
    jsonParse := fun _ => some dataBack }

/-- The keyword score as the code computes it: one point per configured
list *entry* whose keyword occurs (case-insensitively) in the page text
— duplicates in the configured list are counted once per entry. -/
def keywordScore (keywords : List String) (html : String) : Nat :=
  (keywords.filter
    (fun kw => jsIncludes (jsToLower html) (jsToLower kw))).length

/-- Modelled from the wording of the claim, for comparison with `keywordScore`:
the number of *distinct* configured keywords present in the page text
(duplicate configured entries counted once). -/
def distinctKeywordScore (keywords : List String) (html : String) : Nat :=
  (keywords.dedup.filter
    (fun kw => jsIncludes (jsToLower html) (jsToLower kw))).length

/-- An adapter whose available fallback list holds a duplicated keyword. -/
def adapterDupKw : Adapter :=
  { name := "Dup Store", base_url := some "https://dup.example",
    search_endpoint := "/s?q={isbn}", method := "GET",
    structured_data := none, selectors := none,
    fallback_keywords := some
      { available := some ["on shelf", "on shelf"],
        unavailable := some ["checked out"] },
    status_keywords := none, rate_limit := none }

/-- An adapter with a single available fallback keyword. -/
def adapterOneKw : Adapter :=
  { name := "One Store", base_url := some "https://one.example",
    search_endpoint := "/s?q={isbn}", method := "GET",
    structured_data := none, selectors := none,
    fallback_keywords := some
      { available := some ["on shelf"], unavailable := some [] },
    status_keywords := none, rate_limit := none }

/-- One registry entry matches the name stage when rule 1 (direct name
containment) or rule 2 (key terms) fires for it — both are tested for
the same entry in the single registry pass of `findAdapter`. -/
def nameRuleMatch (place : Place) (key : String) : Bool :=
  directNameMatch place key || keyTermMatch place key

/-- An adapter matched only by its key term `foobar`. -/
def adapterKeyTerm : Adapter :=
  { adapterSelectors with name := "zzzz foobar", selectors := none }

/-- An adapter matched by direct name containment. -/
def adapterDirect : Adapter :=
  { adapterSelectors with name := "downtown books", selectors := none }

/-- A registry that enumerates the key-term adapter before the
direct-name adapter. -/
def registryC1 : List (String × Adapter) :=
  [("zzzz foobar", adapterKeyTerm), ("downtown books", adapterDirect)]

/-- A location that direct-name-matches `downtown books` and
key-term-matches `zzzz foobar` (via the token `foobar`). -/
def placeC1 : Place :=
  { name := "downtown books foobar", vicinity := none, website := none }

/-- A location matching neither rule for the key-term adapter but
direct-name-matching the second entry. -/
def placeDowntown : Place :=
  { name := "downtown books", vicinity := none, website := none }

/-- A location with an empty display name. -/
def placeEmptyName : Place :=
  { name := "", vicinity := none, website := none }

/-- A concrete three-location batch where the middle fetch fails. -/
def checksW : List (Place × FetchOutcome) :=
  [(placeStructured, FetchOutcome.success "page"),
   (placeStructured, FetchOutcome.failure "boom"),
   (placeStructured, FetchOutcome.success "page")]

/-! ## Theorems -/

/-! ## Helper lemmas about the classifier stages -/

theorem jsJValOr_some_isSome (x : Option JVal) (y : JVal) :
    (jsJValOr x (some y)).isSome = true := by
  cases x with
  | none => rfl
  | some v => cases v <;> simp [jsJValOr] <;> split <;> simp

theorem classifyAvailability_cases (av : String) (adapter : Adapter) :
    classifyAvailability av adapter =
        { status := "available", copies := 1, confidence := 8 } ∨
      classifyAvailability av adapter =
        { status := "unavailable", copies := 0, confidence := 8 } ∨
      classifyAvailability av adapter =
        { status := "unknown", copies := 0, confidence := 3 } := by
  unfold classifyAvailability
  dsimp only
  split
  · left; rfl
  · split
    · right; left; rfl
    · right; right; rfl

theorem classifyByKeywords_bounds (html : String) (adapter : Adapter) :
    ((classifyByKeywords html adapter).status = "available" ∨
      (classifyByKeywords html adapter).status = "unavailable" ∨
      (classifyByKeywords html adapter).status = "unknown") ∧
    0 ≤ (classifyByKeywords html adapter).confidence ∧
    (classifyByKeywords html adapter).confidence ≤ 7 := by
  unfold classifyByKeywords
  dsimp only
  split
  · exact ⟨Or.inl rfl, by dsimp only; omega, by dsimp only; omega⟩
  · split
    · exact ⟨Or.inr (Or.inl rfl), by dsimp only; omega, by dsimp only; omega⟩
    · exact ⟨Or.inr (Or.inr rfl), by norm_num, by norm_num⟩

theorem extract_conf_gt5 (d : JsonData) (adapter : Adapter)
    (h : (extractFromStructuredData d adapter).confidence > 5) :
    ((extractFromStructuredData d adapter).status = some "available" ∨
      (extractFromStructuredData d adapter).status = some "unavailable") ∧
    (extractFromStructuredData d adapter).confidence = 8 ∧
    (extractFromStructuredData d adapter).copies_available.isSome = true ∧
    (extractFromStructuredData d adapter).price.isSome = true := by
  revert h
  unfold extractFromStructuredData
  dsimp only
  split
  · cases hav : jsTruthyStr
        (jsStrOr (d.offers.bind fun o => o.availability) d.availability) with
    | none => intro h; simp [emptyConfResult] at h
    | some av =>
      dsimp only
      rcases classifyAvailability_cases av adapter with hc | hc | hc <;>
          rw [hc] <;> intro h
      · exact ⟨Or.inl rfl, rfl, rfl, jsJValOr_some_isSome _ _⟩
      · exact ⟨Or.inr rfl, rfl, rfl, jsJValOr_some_isSome _ _⟩
      · norm_num at h
  · intro h; simp [emptyConfResult] at h

theorem jsonLdLoop_conf_gt5 (env : JsEnv) (adapter : Adapter) :
    ∀ blocks : List String, (jsonLdLoop env adapter blocks).confidence > 5 →
    ((jsonLdLoop env adapter blocks).status = some "available" ∨
      (jsonLdLoop env adapter blocks).status = some "unavailable") ∧
    (jsonLdLoop env adapter blocks).confidence = 8 ∧
    (jsonLdLoop env adapter blocks).copies_available.isSome = true ∧
    (jsonLdLoop env adapter blocks).price.isSome = true := by
  intro blocks
  induction blocks with
  | nil => intro h; simp [jsonLdLoop, emptyConfResult] at h
  | cons b rest ih =>
    unfold jsonLdLoop
    cases hp : env.jsonParse (env.stripLd b) with
    | none => exact ih
    | some d =>
      dsimp only
      split
      · rename_i hgt
        intro _
        exact extract_conf_gt5 d adapter hgt
      · exact ih

theorem parseStructuredData_conf_gt5 (env : JsEnv) (html : String)
    (adapter : Adapter)
    (h : (parseStructuredData env html adapter).confidence > 5) :
    ((parseStructuredData env html adapter).status = some "available" ∨
      (parseStructuredData env html adapter).status = some "unavailable") ∧
    (parseStructuredData env html adapter).confidence = 8 ∧
    (parseStructuredData env html adapter).copies_available.isSome = true ∧
    (parseStructuredData env html adapter).price.isSome = true := by
  revert h
  unfold parseStructuredData
  split
  · cases hm : env.matchJsonLd html with
    | none => intro h; simp [emptyConfResult] at h
    | some blocks => exact jsonLdLoop_conf_gt5 env adapter blocks
  · intro h; simp [emptyConfResult] at h

theorem initialHTMLResult_inv (url : String) :
    ParseInv (initialHTMLResult url) := by
  refine ⟨Or.inr (Or.inr rfl), ?_, ?_, rfl⟩ <;> norm_num [initialHTMLResult]

theorem availableCheck_inv (env : JsEnv) (adapter : Adapter) (html : String)
    (r : ParseResult) (h : ParseInv r) :
    ParseInv (availableCheck env adapter html r) := by
  unfold availableCheck
  split
  · split
    · obtain ⟨-, -, -, hf⟩ := h
      refine ⟨Or.inl rfl, by norm_num, by norm_num, ?_⟩
      simp only [prHasAllFields, Bool.and_eq_true] at hf ⊢
      simp_all
    · exact h
  · exact h

theorem unavailableCheck_inv (env : JsEnv) (adapter : Adapter) (html : String)
    (r : ParseResult) (h : ParseInv r) :
    ParseInv (unavailableCheck env adapter html r) := by
  unfold unavailableCheck
  split
  · split
    · obtain ⟨-, -, -, hf⟩ := h
      refine ⟨Or.inr (Or.inl rfl), by norm_num, by norm_num, ?_⟩
      simp only [prHasAllFields, Bool.and_eq_true] at hf ⊢
      simp_all
    · exact h
  · exact h

theorem hplCheck_inv (adapter : Adapter) (html : String)
    (r : ParseResult) (h : ParseInv r) :
    ParseInv (hplCheck adapter html r) := by
  unfold hplCheck
  obtain ⟨hs, hc0, hc1, hf⟩ := h
  simp only [prHasAllFields, Bool.and_eq_true] at hf
  split
  · split
    · refine ⟨Or.inl rfl, by norm_num, by norm_num, ?_⟩
      simp only [prHasAllFields, Bool.and_eq_true]
      simp_all
    · split
      · refine ⟨Or.inr (Or.inl rfl), by norm_num, by norm_num, ?_⟩
        simp only [prHasAllFields, Bool.and_eq_true]
        simp_all
      · refine ⟨hs, hc0, hc1, ?_⟩
        simp only [prHasAllFields, Bool.and_eq_true]
        exact hf
  · refine ⟨hs, hc0, hc1, ?_⟩
    simp only [prHasAllFields, Bool.and_eq_true]
    exact hf

theorem keywordFallback_inv (adapter : Adapter) (html : String)
    (r : ParseResult) (h : ParseInv r) :
    ParseInv (keywordFallback adapter html r) := by
  unfold keywordFallback
  dsimp only
  split
  · split
    · obtain ⟨hs, hc0, hc1, hf⟩ := h
      obtain ⟨hks, hkc0, hkc1⟩ := classifyByKeywords_bounds html adapter
      refine ⟨?_, hkc0, by dsimp only; omega, ?_⟩
      · rcases hks with hk | hk | hk <;> rw [hk]
        · exact Or.inl rfl
        · exact Or.inr (Or.inl rfl)
        · exact Or.inr (Or.inr rfl)
      · simp only [prHasAllFields, Bool.and_eq_true] at hf ⊢
        simp_all
    · exact h
  · exact h

theorem parseHTML_inv (env : JsEnv) (html : String) (adapter : Adapter)
    (url : String) : ParseInv (parseHTML env html adapter url) := by
  unfold parseHTML
  exact keywordFallback_inv adapter html _
    (hplCheck_inv adapter html _
      (unavailableCheck_inv env adapter html _
        (availableCheck_inv env adapter html _ (initialHTMLResult_inv url))))

theorem parseAvailability_status (env : JsEnv) (adapter : Adapter)
    (html url : String) :
    GoodParseStatus (parseAvailability env adapter html url).status ∧
    0 ≤ (parseAvailability env adapter html url).confidence ∧
    (parseAvailability env adapter html url).confidence ≤ 10 ∧
    (parseAvailability env adapter html url).status.isSome = true ∧
    (parseAvailability env adapter html url).copies_available.isSome = true ∧
    (parseAvailability env adapter html url).price.isSome = true := by
  unfold parseAvailability
  dsimp only
  split
  · split
    · rename_i hgt
      obtain ⟨hs, hc, hcp, hpr⟩ := parseStructuredData_conf_gt5 env html adapter hgt
      refine ⟨?_, by omega, by omega, ?_, hcp, hpr⟩
      · rcases hs with hs | hs
        · exact Or.inl hs
        · exact Or.inr (Or.inl hs)
      · rcases hs with hs | hs <;> simp [hs]
    · obtain ⟨hs, hc0, hc1, hf⟩ := parseHTML_inv env html adapter url
      simp only [prHasAllFields, Bool.and_eq_true] at hf
      exact ⟨hs, hc0, hc1, hf.1.1.1.1.1, hf.1.1.1.1.2, hf.1.1.1.2⟩
  · obtain ⟨hs, hc0, hc1, hf⟩ := parseHTML_inv env html adapter url
    simp only [prHasAllFields, Bool.and_eq_true] at hf
    exact ⟨hs, hc0, hc1, hf.1.1.1.1.1, hf.1.1.1.1.2, hf.1.1.1.2⟩

/-- C6: every `AvailabilityResult` produced by any path of
`checkBookAvailability` — no-adapter, rate-limited, fetch-failure, and
every classification outcome including the Hamilton Public Library
override and the keyword fallback — has confidence within [0.0, 1.0]
(here in tenths: within [0, 10]) and a status among `available`,
`unavailable`, `unknown`, `rate_limited`, `error`. -/
theorem c6_result_invariants (env : JsEnv) (sys : SysState) (place : Place)
    (isbn : String) (outcome : FetchOutcome) (now : Int) :
    0 ≤ (checkBookAvailability env sys place isbn outcome now).1.confidence ∧
    (checkBookAvailability env sys place isbn outcome now).1.confidence ≤ 10 ∧
    GoodStatus (checkBookAvailability env sys place isbn outcome now).1.status := by
  unfold checkBookAvailability
  cases hA : findAdapter env sys.adapters place with
  | none =>
    exact ⟨le_refl 0, by norm_num, Or.inl (Or.inr (Or.inr rfl))⟩
  | some adapter =>
    dsimp only
    split
    · exact ⟨le_refl 0, by norm_num, Or.inr (Or.inl rfl)⟩
    · cases outcome with
      | success html =>
        obtain ⟨hs, hc0, hc1, -, -, -⟩ := parseAvailability_status env adapter
          html (searchUrl adapter isbn)
        exact ⟨hc0, hc1, Or.inl hs⟩
      | failure msg =>
        exact ⟨le_refl 0, by norm_num, Or.inr (Or.inr rfl)⟩

theorem parseAvailability_eq_parseHTML (env : JsEnv) (adapter : Adapter)
    (html url : String)
    (h : ((sdSchemaOrg adapter || sdJsonLd adapter) &&
      decide ((parseStructuredData env html adapter).confidence > 5)) = false) :
    parseAvailability env adapter html url = parseHTML env html adapter url := by
  unfold parseAvailability
  dsimp only
  cases hf : (sdSchemaOrg adapter || sdJsonLd adapter) with
  | false => simp [hf]
  | true =>
    rw [hf, Bool.true_and] at h
    simp only [hf, if_true]
    rw [if_neg (of_decide_eq_false h)]

/-- C2 counterexample: on the structured-data success path the returned
record omits `branch`, `call_number` and `url` outright (they are not
explicit nulls — the properties are absent), so not every code path
yields a fully-populated ten-field record. -/
theorem c2_counterexample :
    hasAllFields (checkBookAvailability envStructured sysStructured
      placeStructured "9781234567890" (FetchOutcome.success "page") 0).1
      = false ∧
    (checkBookAvailability envStructured sysStructured placeStructured
      "9781234567890" (FetchOutcome.success "page") 0).1.branch = none ∧
    (checkBookAvailability envStructured sysStructured placeStructured
      "9781234567890" (FetchOutcome.success "page") 0).1.call_number = none ∧
    (checkBookAvailability envStructured sysStructured placeStructured
      "9781234567890" (FetchOutcome.success "page") 0).1.url = none ∧
    (checkBookAvailability envStructured sysStructured placeStructured
      "9781234567890" (FetchOutcome.success "page") 0).1.status
      = some "available" ∧
    structuredTaken envStructured sysStructured placeStructured
      (FetchOutcome.success "page") 0 = true := by
  decide

/-- C2 amended: every code path of `checkBookAvailability` populates
`isbn`, `source`, `status`, `copies_available`, `price`, `last_checked`
and `confidence`; every path except the structured-data success path
additionally populates `branch`, `call_number` and `url` (absent data as
explicit nulls).  On the structured-data path those three properties are
omitted from the object. -/
theorem c2_full_record_amended (env : JsEnv) (sys : SysState) (place : Place)
    (isbn : String) (outcome : FetchOutcome) (now : Int) :
    hasCoreFields (checkBookAvailability env sys place isbn outcome now).1
      = true ∧
    (structuredTaken env sys place outcome now = false →
      hasAllFields (checkBookAvailability env sys place isbn outcome now).1
        = true) := by
  unfold checkBookAvailability structuredTaken
  cases hA : findAdapter env sys.adapters place with
  | none => exact ⟨rfl, fun _ => rfl⟩
  | some adapter =>
    dsimp only
    split
    · exact ⟨rfl, fun _ => rfl⟩
    · cases outcome with
      | success html =>
        constructor
        · obtain ⟨-, -, -, h1, h2, h3⟩ := parseAvailability_status env adapter
            html (searchUrl adapter isbn)
          simp only [hasCoreFields, Bool.and_eq_true]
          exact ⟨⟨h1, h2⟩, h3⟩
        · intro hnt
          dsimp only at hnt ⊢
          rw [parseAvailability_eq_parseHTML env adapter html
            (searchUrl adapter isbn) hnt]
          obtain ⟨-, -, -, hf⟩ := parseHTML_inv env html adapter
            (searchUrl adapter isbn)
          simp only [prHasAllFields, Bool.and_eq_true] at hf
          simp only [hasAllFields, hasCoreFields, Bool.and_eq_true]
          exact hf
      | failure msg => exact ⟨rfl, fun _ => rfl⟩

/-- Witness for the amended C2 theorem at a concrete non-structured
input (a failed fetch), where all ten fields are present. -/
theorem c2_full_record_amended_witness :
    hasCoreFields (checkBookAvailability envStructured sysStructured
      placeStructured "9781234567890" (FetchOutcome.failure "timeout") 0).1
      = true ∧
    hasAllFields (checkBookAvailability envStructured sysStructured
      placeStructured "9781234567890" (FetchOutcome.failure "timeout") 0).1
      = true := by
  obtain ⟨h1, h2⟩ := c2_full_record_amended envStructured sysStructured
    placeStructured "9781234567890" (FetchOutcome.failure "timeout") 0
  exact ⟨h1, h2 (by decide)⟩

theorem jsMapGet_set_self {α : Type} (m : List (String × α)) (k : String)
    (v : α) : jsMapGet (jsMapSet m k v) k = some v := by
  induction m with
  | nil => simp [jsMapGet, jsMapSet]
  | cons p rest ih =>
    by_cases hp : p.1 = k
    · simp [jsMapGet, jsMapSet, hp]
    · simp only [jsMapSet, if_neg hp]
      simpa [jsMapGet, List.find?_cons, hp] using ih

theorem isRateLimited_mono (sys : SysState) (name : String) (now now2 : Int)
    (h : isRateLimited sys name now = false) (hle : now ≤ now2) :
    isRateLimited sys name now2 = false := by
  unfold isRateLimited at h ⊢
  cases hg : jsMapGet sys.rateLimits name with
  | none => rfl
  | some last =>
    rw [hg] at h
    dsimp only at h ⊢
    by_cases h0 : last = 0
    · rw [if_pos h0]
    · rw [if_neg h0] at h ⊢
      simp only [decide_eq_false_iff_not] at h ⊢
      omega

theorem goodParseStatus_ne (s : Option String) (h : GoodParseStatus s) :
    s ≠ some "rate_limited" ∧ s ≠ some "error" := by
  rcases h with h | h | h <;> rw [h] <;> exact ⟨by decide, by decide⟩

/-- C3: the rate-limiter asymmetry.  With a matched adapter that is not
currently rate-limited: a failed fetch leaves the whole system state —
in particular the timestamp table — unchanged, so a following check for
the same source is not rate-limited (and cannot return `rate_limited`);
a successful fetch writes `now` into the table, after which, for a
1-second window (`rateLimitMs = 1000`), an immediate second check
(`now2 - now < 1000`) returns a `rate_limited`-status result, while a
check after the window (`1000 ≤ now2 - now`) is permitted again.  The
rate-limited conjunct assumes `now ≠ 0`: a stored timestamp of exactly
0 is falsy to the guard of `isRateLimited`, and `Date.now()` is the
positive current epoch-millisecond count, so the excluded instant is
unreachable at runtime. -/
theorem c3_rate_limiter_asymmetry (env : JsEnv) (sys : SysState)
    (place : Place) (isbn : String) (adapter : Adapter)
    (msg html : String) (outcome2 : FetchOutcome) (now now2 : Int)
    (hA : findAdapter env sys.adapters place = some adapter)
    (hRL : isRateLimited sys adapter.name now = false) :
    (checkBookAvailability env sys place isbn (FetchOutcome.failure msg)
      now).2 = sys ∧
    (now ≤ now2 →
      isRateLimited (checkBookAvailability env sys place isbn
        (FetchOutcome.failure msg) now).2 adapter.name now2 = false) ∧
    (now ≤ now2 →
      (checkBookAvailability env (checkBookAvailability env sys place isbn
        (FetchOutcome.failure msg) now).2 place isbn outcome2 now2).1.status
        ≠ some "rate_limited") ∧
    (checkBookAvailability env sys place isbn (FetchOutcome.success html)
      now).2 = updateRateLimit sys adapter.name now ∧
    jsMapGet (checkBookAvailability env sys place isbn
      (FetchOutcome.success html) now).2.rateLimits adapter.name
      = some now ∧
    (now ≠ 0 → rateLimitMs sys.adapters adapter.name = 1000 →
      now2 - now < 1000 →
      (checkBookAvailability env (checkBookAvailability env sys place isbn
        (FetchOutcome.success html) now).2 place isbn outcome2 now2).1.status
        = some "rate_limited") ∧
    (rateLimitMs sys.adapters adapter.name = 1000 → 1000 ≤ now2 - now →
      isRateLimited (checkBookAvailability env sys place isbn
        (FetchOutcome.success html) now).2 adapter.name now2 = false) := by
  have hfail : checkBookAvailability env sys place isbn
      (FetchOutcome.failure msg) now =
      ({ isbn := isbn, source := place.name, status := some "error",
         copies_available := some 0, price := some JVal.jnull,
         branch := some JVal.jnull, call_number := some JVal.jnull,
         url := some JVal.jnull, last_checked := now, confidence := 0,
         error := some ("Scraping failed: " ++ msg) }, sys) := by
    unfold checkBookAvailability
    rw [hA]
    dsimp only
    rw [if_neg (by simp [hRL])]
  have hsucc2 : (checkBookAvailability env sys place isbn
      (FetchOutcome.success html) now).2
      = updateRateLimit sys adapter.name now := by
    unfold checkBookAvailability
    rw [hA]
    dsimp only
    rw [if_neg (by simp [hRL])]
  refine ⟨by rw [hfail], ?_, ?_, hsucc2, ?_, ?_, ?_⟩
  · intro hle
    rw [hfail]
    exact isRateLimited_mono sys adapter.name now now2 hRL hle
  · intro hle
    rw [hfail]
    have hRL2 := isRateLimited_mono sys adapter.name now now2 hRL hle
    unfold checkBookAvailability
    rw [hA]
    dsimp only
    rw [if_neg (by simp [hRL2])]
    cases outcome2 with
    | success h2 =>
      dsimp only
      exact (goodParseStatus_ne _
        (parseAvailability_status env adapter h2 (searchUrl adapter isbn)).1).1
    | failure m2 =>
      dsimp only
      decide
  · rw [hsucc2]
    unfold updateRateLimit
    dsimp only
    exact jsMapGet_set_self _ _ _
  · intro hn0 hW hlt
    rw [hsucc2]
    have hLim : isRateLimited (updateRateLimit sys adapter.name now)
        adapter.name now2 = true := by
      unfold isRateLimited updateRateLimit
      dsimp only
      rw [jsMapGet_set_self]
      dsimp only
      rw [if_neg hn0, hW]
      simp only [decide_eq_true_eq]
      omega
    unfold checkBookAvailability
    have hAd : (updateRateLimit sys adapter.name now).adapters
        = sys.adapters := rfl
    rw [hAd, hA]
    dsimp only
    rw [if_pos hLim]
  · intro hW hge
    rw [hsucc2]
    unfold isRateLimited updateRateLimit
    dsimp only
    rw [jsMapGet_set_self]
    dsimp only
    by_cases h0 : now = 0
    · rw [if_pos h0]
    · rw [if_neg h0, hW]
      simp only [decide_eq_false_iff_not]
      omega

/-- Witness for the C3 theorem: a concrete registry and place, a
successful fetch at the (nonzero) instant 100 ms, with the immediate
re-check at 600 ms returning `rate_limited` and the re-check at
1200 ms no longer limited. -/
theorem c3_rate_limiter_asymmetry_witness :
    (checkBookAvailability envStructured sysStructured placeStructured
      "9781234567890" (FetchOutcome.failure "timeout") 100).2
      = sysStructured ∧
    (checkBookAvailability envStructured sysStructured placeStructured
      "9781234567890" (FetchOutcome.success "page") 100).2
      = updateRateLimit sysStructured adapterStructured.name 100 ∧
    (checkBookAvailability envStructured
      (checkBookAvailability envStructured sysStructured placeStructured
        "9781234567890" (FetchOutcome.success "page") 100).2
      placeStructured "9781234567890" (FetchOutcome.success "page")
      600).1.status = some "rate_limited" ∧
    isRateLimited (checkBookAvailability envStructured sysStructured
      placeStructured "9781234567890" (FetchOutcome.success "page") 100).2
      adapterStructured.name 1200 = false := by
  have h1 := c3_rate_limiter_asymmetry envStructured sysStructured
    placeStructured "9781234567890" adapterStructured "timeout" "page"
    (FetchOutcome.success "page") 100 600 (by decide) (by decide)
  have h2 := c3_rate_limiter_asymmetry envStructured sysStructured
    placeStructured "9781234567890" adapterStructured "timeout" "page"
    (FetchOutcome.success "page") 100 1200 (by decide) (by decide)
  exact ⟨h1.1, h1.2.2.2.1,
    h1.2.2.2.2.2.1 (by decide) (by decide) (by decide),
    h2.2.2.2.2.2.2 (by decide) (by decide)⟩

/-- C4: Stage B precedence.  Whenever the adapter has truthy available
and unavailable selector lists and at least one pattern from each
matches the page, the state after the two selector blocks has status
`unavailable` with confidence 0.8 (the unconditional unavailable check
overwrites the status set by the available check); consequently, for any adapter
other than the name-keyed Hamilton Public Library override, `parseHTML`
itself returns status `unavailable` with confidence 0.8. -/
theorem c4_stageB_precedence (env : JsEnv) (adapter : Adapter)
    (html url sa su : String)
    (ha : jsTruthyStr (adapter.selectors.bind (fun s => s.available))
      = some sa)
    (hu : jsTruthyStr (adapter.selectors.bind (fun s => s.unavailable))
      = some su)
    (hma : (selectorPatterns sa).any (fun p => env.regexTest p html) = true)
    (hmu : (selectorPatterns su).any (fun p => env.regexTest p html) = true) :
    (unavailableCheck env adapter html (availableCheck env adapter html
      (initialHTMLResult url))).status = some "unavailable" ∧
    (unavailableCheck env adapter html (availableCheck env adapter html
      (initialHTMLResult url))).confidence = 8 ∧
    (adapter.name ≠ "Hamilton Public Library" →
      (parseHTML env html adapter url).status = some "unavailable" ∧
      (parseHTML env html adapter url).confidence = 8) := by
  have hav : availableCheck env adapter html (initialHTMLResult url)
      = { initialHTMLResult url with
          status := some "available", confidence := 8,
          copies_available := some 1 } := by
    unfold availableCheck
    rw [ha]
    dsimp only
    rw [if_pos hma]
  have hun : unavailableCheck env adapter html (availableCheck env adapter
      html (initialHTMLResult url))
      = { availableCheck env adapter html (initialHTMLResult url) with
          status := some "unavailable", confidence := 8 } := by
    unfold unavailableCheck
    rw [hu]
    dsimp only
    rw [if_pos hmu]
  refine ⟨by rw [hun], by rw [hun], ?_⟩
  intro hname
  unfold parseHTML
  rw [hun, hav]
  unfold hplCheck
  rw [if_neg hname]
  unfold keywordFallback
  dsimp only
  rw [if_neg (by show ¬((8 : Int) < 5); decide)]
  exact ⟨rfl, rfl⟩

/-- Witness for the C4 theorem: with both selector lists matching the
page, the stage-B result and the whole `parseHTML` result are
`unavailable` at confidence 0.8. -/
theorem c4_stageB_precedence_witness :
    (unavailableCheck envAllMatch adapterSelectors "page"
      (availableCheck envAllMatch adapterSelectors "page"
        (initialHTMLResult "u"))).status = some "unavailable" ∧
    (parseHTML envAllMatch "page" adapterSelectors "u").status
      = some "unavailable" ∧
    (parseHTML envAllMatch "page" adapterSelectors "u").confidence = 8 := by
  have h := c4_stageB_precedence envAllMatch adapterSelectors "page" "u"
    "On Shelf" "Checked Out" (by decide) (by decide) (by decide) (by decide)
  exact ⟨h.1, (h.2.2 (by decide)).1, (h.2.2 (by decide)).2⟩

/-- C9: the implicit Hamilton Public Library override.  Exactly for the
adapter named `Hamilton Public Library`, after the selector checks: a
page containing the case-sensitive literals `Available`, `Book` and
`Visit` is forced to status `available` with confidence 0.9 and
copies_available 1; otherwise a page containing `All copies in use` or
`Checked Out` is forced to status `unavailable` with confidence 0.9
(leaving copies_available untouched).  Both branches override whatever
the stage-B selector result `r` was, and any other adapter name leaves
`r` unchanged. -/
theorem c9_hpl_override (adapter : Adapter) (html : String)
    (r : ParseResult) :
    (adapter.name = "Hamilton Public Library" →
      ((jsIncludes html "Available" && jsIncludes html "Book" &&
          jsIncludes html "Visit") = true →
        (hplCheck adapter html r).status = some "available" ∧
        (hplCheck adapter html r).confidence = 9 ∧
        (hplCheck adapter html r).copies_available = some 1) ∧
      ((jsIncludes html "Available" && jsIncludes html "Book" &&
          jsIncludes html "Visit") = false →
        (jsIncludes html "All copies in use" ||
          jsIncludes html "Checked Out") = true →
        (hplCheck adapter html r).status = some "unavailable" ∧
        (hplCheck adapter html r).confidence = 9 ∧
        (hplCheck adapter html r).copies_available
          = r.copies_available)) ∧
    (adapter.name ≠ "Hamilton Public Library" →
      hplCheck adapter html r = r) := by
  constructor
  · intro hname
    constructor
    · intro htriple
      unfold hplCheck
      rw [if_pos hname, if_pos htriple]
      exact ⟨rfl, rfl, rfl⟩
    · intro htriple hout
      unfold hplCheck
      rw [if_pos hname, if_neg (by simp [htriple]), if_pos hout]
      exact ⟨rfl, rfl, rfl⟩
  · intro hname
    unfold hplCheck
    rw [if_neg hname]

/-- Witness for the C9 theorem: both override branches fire on concrete
pages for the Hamilton adapter, and a differently-named adapter passes
the record through unchanged. -/
theorem c9_hpl_override_witness :
    (hplCheck { adapterSelectors with name := "Hamilton Public Library" }
      "Available Book Visit" (initialHTMLResult "u")).status
      = some "available" ∧
    (hplCheck { adapterSelectors with name := "Hamilton Public Library" }
      "Checked Out" (initialHTMLResult "u")).status = some "unavailable" ∧
    hplCheck adapterSelectors "Available Book Visit" (initialHTMLResult "u")
      = initialHTMLResult "u" := by
  have h1 := c9_hpl_override
    { adapterSelectors with name := "Hamilton Public Library" }
    "Available Book Visit" (initialHTMLResult "u")
  have h2 := c9_hpl_override
    { adapterSelectors with name := "Hamilton Public Library" }
    "Checked Out" (initialHTMLResult "u")
  have h3 := c9_hpl_override adapterSelectors "Available Book Visit"
    (initialHTMLResult "u")
  exact ⟨((h1.1 rfl).1 (by decide)).1,
    ((h2.1 rfl).2 (by decide) (by decide)).1,
    h3.2 (by decide)⟩

/-- C7: Stage A of the classifier.  First part: a page whose single
JSON-LD block parses to an object typed `Book` whose availability
string resolves to `InStock`, together with a JSON-LD-enabled adapter
whose available status-keyword list contains `instock`, makes the
classifier return status `available` with confidence 0.8 and
copies_available 1.  Second part: when the availability string matches
no configured available or unavailable status keyword,
`classifyAvailability` yields status `unknown` at confidence 0.3, which
does not beat the 0.5 threshold, so `parseAvailability` falls through
to the Stage B/C pipeline (`parseHTML`). -/
theorem c7_stageA (env : JsEnv) (adapter : Adapter) (html url b : String)
    (d : JsonData) (env2 : JsEnv) (adapter2 : Adapter)
    (html2 url2 b2 avail : String) (d2 : JsonData)
    (hld : sdJsonLd adapter = true)
    (hm : env.matchJsonLd html = some [b])
    (hp : env.jsonParse (env.stripLd b) = some d)
    (hty : d.atType = some "Book")
    (hav : jsStrOr (d.offers.bind fun o => o.availability) d.availability
      = some "InStock")
    (hkw : "instock" ∈ statusAvailableKw adapter)
    (hnoa : ∀ kw ∈ statusAvailableKw adapter2,
      jsIncludes (jsToLower avail) (jsToLower kw) = false)
    (hnou : ∀ kw ∈ statusUnavailableKw adapter2,
      jsIncludes (jsToLower avail) (jsToLower kw) = false)
    (hld2 : sdJsonLd adapter2 = true)
    (hm2 : env2.matchJsonLd html2 = some [b2])
    (hp2 : env2.jsonParse (env2.stripLd b2) = some d2)
    (hty2 : d2.atType = some "Book")
    (hav2 : jsStrOr (d2.offers.bind fun o => o.availability)
      d2.availability = some avail)
    (hne : avail ≠ "") :
    (parseAvailability env adapter html url).status = some "available" ∧
    (parseAvailability env adapter html url).confidence = 8 ∧
    (parseAvailability env adapter html url).copies_available = some 1 ∧
    classifyAvailability avail adapter2
      = { status := "unknown", copies := 0, confidence := 3 } ∧
    ¬((3 : Int) > 5) ∧
    parseAvailability env2 adapter2 html2 url2
      = parseHTML env2 html2 adapter2 url2 := by
  have hcl : classifyAvailability "InStock" adapter
      = { status := "available", copies := 1, confidence := 8 } := by
    unfold classifyAvailability
    dsimp only
    rw [if_pos (List.any_eq_true.mpr ⟨"instock", hkw, by decide⟩)]
  have hex : (extractFromStructuredData d adapter).status = some "available"
      ∧ (extractFromStructuredData d adapter).copies_available = some 1
      ∧ (extractFromStructuredData d adapter).confidence = 8 := by
    unfold extractFromStructuredData
    rw [if_pos (Or.inl hty)]
    dsimp only
    rw [hav]
    have hts : jsTruthyStr (some "InStock") = some "InStock" := by decide
    rw [hts]
    dsimp only
    rw [hcl]
    exact ⟨rfl, rfl, rfl⟩
  have hsd : parseStructuredData env html adapter
      = extractFromStructuredData d adapter := by
    unfold parseStructuredData
    rw [if_pos hld, hm]
    dsimp only
    unfold jsonLdLoop
    rw [hp]
    dsimp only
    rw [if_pos (by rw [hex.2.2]; norm_num)]
  have hpa : parseAvailability env adapter html url
      = extractFromStructuredData d adapter := by
    unfold parseAvailability
    dsimp only
    rw [if_pos (by simp [hld])]
    rw [hsd]
    rw [if_pos (by rw [hex.2.2]; norm_num)]
  have hcl2 : classifyAvailability avail adapter2
      = { status := "unknown", copies := 0, confidence := 3 } := by
    unfold classifyAvailability
    dsimp only
    rw [if_neg (by
      rw [List.any_eq_false.mpr (fun kw hkw2 => by simp [hnoa kw hkw2])]
      exact Bool.false_ne_true)]
    rw [if_neg (by
      rw [List.any_eq_false.mpr (fun kw hkw2 => by simp [hnou kw hkw2])]
      exact Bool.false_ne_true)]
  have hex2 : (extractFromStructuredData d2 adapter2).confidence = 3 := by
    unfold extractFromStructuredData
    rw [if_pos (Or.inl hty2)]
    dsimp only
    rw [hav2]
    have hts2 : jsTruthyStr (some avail) = some avail := by
      simp [jsTruthyStr, hne]
    rw [hts2]
    dsimp only
    rw [hcl2]
  have hsd2 : parseStructuredData env2 html2 adapter2
      = emptyConfResult := by
    unfold parseStructuredData
    rw [if_pos hld2, hm2]
    dsimp only
    unfold jsonLdLoop
    rw [hp2]
    dsimp only
    rw [if_neg (by rw [hex2]; norm_num)]
    rfl
  refine ⟨by rw [hpa]; exact hex.1, by rw [hpa]; exact hex.2.2,
    by rw [hpa]; exact hex.2.1, hcl2, by norm_num, ?_⟩
  apply parseAvailability_eq_parseHTML
  rw [hsd2]
  simp [emptyConfResult]

/-- Witness for the C7 theorem at a concrete page, adapter and JSON-LD
object for each of the two parts. -/
theorem c7_stageA_witness :
    (parseAvailability envStructured adapterStructured "page" "u").status
      = some "available" ∧
    (parseAvailability envStructured adapterStructured "page" "u").confidence
      = 8 ∧
    (parseAvailability envStructured adapterStructured "page"
      "u").copies_available = some 1 ∧
    classifyAvailability "Backordered" adapterStructured
      = { status := "unknown", copies := 0, confidence := 3 } ∧
    parseAvailability envStructured2 adapterStructured "page" "u"
      = parseHTML envStructured2 "page" adapterStructured "u" := by
  have h := c7_stageA envStructured adapterStructured "page" "u" "block"
    dataBook envStructured2 adapterStructured "page" "u" "block"
    "Backordered" dataBack (by decide) (by decide) (by decide) (by decide)
    (by decide) (by decide) (by decide) (by decide) (by decide) (by decide)
    (by decide) (by decide) (by decide) (by decide)
  exact ⟨h.1, h.2.1, h.2.2.1, h.2.2.2.1, h.2.2.2.2.2⟩

/-- C8 counterexample: with a duplicated configured keyword, the
distinct counts tie at 1–1 — the claim then demands status `unknown`
with confidence 0 — but the code scores per list entry (2 vs 1) and
returns `available` with confidence 0.4. -/
theorem c8_counterexample :
    distinctKeywordScore (fallbackAvailableKw adapterDupKw)
      "on shelf checked out" = 1 ∧
    distinctKeywordScore (fallbackUnavailableKw adapterDupKw)
      "on shelf checked out" = 1 ∧
    keywordScore (fallbackAvailableKw adapterDupKw)
      "on shelf checked out" = 2 ∧
    classifyByKeywords "on shelf checked out" adapterDupKw
      = { status := "available", confidence := 4 } := by
  decide

/-- C8 amended: with `a`/`u` the per-entry counts of configured
available/unavailable list entries whose keyword is present (equal to
the distinct counts whenever the configured lists are duplicate-free),
the keyword stage returns `available` at `min 0.7 (a * 0.2)` when
`a > u`, `unavailable` at `min 0.7 (u * 0.2)` when `u > a`, and
`unknown` at confidence 0 on ties (including the all-zero tie); its
application inside `parseHTML` rewrites only `status` and `confidence`
— never `copies_available`, `price`, `branch`, `call_number` or `url` —
and changes the record only when its confidence strictly exceeds the
current one. -/
theorem c8_keyword_stage_amended (html : String) (adapter : Adapter)
    (r : ParseResult) :
    (keywordScore (fallbackAvailableKw adapter) html >
        keywordScore (fallbackUnavailableKw adapter) html →
      classifyByKeywords html adapter =
        { status := "available",
          confidence := min 7
            ((keywordScore (fallbackAvailableKw adapter) html : Int) * 2) }) ∧
    (keywordScore (fallbackUnavailableKw adapter) html >
        keywordScore (fallbackAvailableKw adapter) html →
      classifyByKeywords html adapter =
        { status := "unavailable",
          confidence := min 7
            ((keywordScore (fallbackUnavailableKw adapter) html : Int) * 2) }) ∧
    (keywordScore (fallbackAvailableKw adapter) html =
        keywordScore (fallbackUnavailableKw adapter) html →
      classifyByKeywords html adapter =
        { status := "unknown", confidence := 0 }) ∧
    (keywordFallback adapter html r).copies_available
      = r.copies_available ∧
    (keywordFallback adapter html r).price = r.price ∧
    (keywordFallback adapter html r).branch = r.branch ∧
    (keywordFallback adapter html r).call_number = r.call_number ∧
    (keywordFallback adapter html r).url = r.url ∧
    (keywordFallback adapter html r ≠ r →
      (classifyByKeywords html adapter).confidence > r.confidence) := by
  refine ⟨?_, ?_, ?_, ?_, ?_, ?_, ?_, ?_, ?_⟩
  · intro hgt
    unfold keywordScore at hgt
    unfold classifyByKeywords
    dsimp only
    rw [if_pos ⟨hgt, by omega⟩]
    rfl
  · intro hgt
    unfold keywordScore at hgt
    unfold classifyByKeywords
    dsimp only
    rw [if_neg (fun hc => absurd hc.1 (by omega)),
      if_pos ⟨hgt, by omega⟩]
    rfl
  · intro heq
    unfold keywordScore at heq
    unfold classifyByKeywords
    dsimp only
    rw [if_neg (fun hc => absurd hc.1 (by omega)),
      if_neg (fun hc => absurd hc.1 (by omega))]
  all_goals
    unfold keywordFallback
    dsimp only
  · split
    · split
      · rfl
      · rfl
    · rfl
  · split
    · split
      · rfl
      · rfl
    · rfl
  · split
    · split
      · rfl
      · rfl
    · rfl
  · split
    · split
      · rfl
      · rfl
    · rfl
  · split
    · split
      · rfl
      · rfl
    · rfl
  · intro hne
    split at hne
    · split at hne
      · rename_i hgt
        exact hgt
      · exact absurd rfl hne
    · exact absurd rfl hne

/-- Witness for the amended C8 theorem: one available keyword present,
none unavailable, so the stage yields `available` at confidence 0.2 and
the fallback rewrites only status and confidence of the initial record. -/
theorem c8_keyword_stage_amended_witness :
    classifyByKeywords "the book is on shelf now" adapterOneKw
      = { status := "available", confidence := 2 } ∧
    (keywordFallback adapterOneKw "the book is on shelf now"
      (initialHTMLResult "u")).price = (initialHTMLResult "u").price ∧
    (classifyByKeywords "the book is on shelf now" adapterOneKw).confidence
      > (initialHTMLResult "u").confidence := by
  have h := c8_keyword_stage_amended "the book is on shelf now" adapterOneKw
    (initialHTMLResult "u")
  refine ⟨?_, h.2.2.2.2.1, ?_⟩
  · have h1 := h.1 (by decide)
    rw [h1]
    decide
  · exact h.2.2.2.2.2.2.2.2 (by decide)

/-- C1 counterexample: the location matches the second registry entry
under the direct-name rule and only the first entry under the key-term
rule, yet `findAdapter` returns the first (key-term-matched) adapter —
rule 1 does not outrank rule 2 across registry enumeration order. -/
theorem c1_counterexample :
    directNameMatch placeC1 "downtown books" = true ∧
    directNameMatch placeC1 "zzzz foobar" = false ∧
    keyTermMatch placeC1 "zzzz foobar" = true ∧
    findAdapter envStructured registryC1 placeC1 = some adapterKeyTerm ∧
    adapterKeyTerm ≠ adapterDirect := by
  decide

/-- C1 amended: `findAdapter` evaluates rules 1 and 2 together in one
pass over the registry and returns the first entry (in enumeration
order) matching either rule, testing rule 1 before rule 2 on each
entry.  Rule 1 therefore wins only when the direct-name-matched source
appears no later than every key-term-matched source: if every earlier
entry matches neither rule and entry `p` matches rule 1 or rule 2,
the adapter of `p` is returned. -/
theorem c1_matcher_priority_amended (env : JsEnv) (place : Place)
    (reg1 reg2 : List (String × Adapter)) (p : String × Adapter)
    (hearlier : ∀ q ∈ reg1, nameRuleMatch place q.1 = false)
    (hp : nameRuleMatch place p.1 = true) :
    findAdapter env (reg1 ++ p :: reg2) place = some p.2 := by
  have hnl : ∀ reg1 : List (String × Adapter),
      (∀ q ∈ reg1, nameRuleMatch place q.1 = false) →
      nameLoop place (reg1 ++ p :: reg2) = some p.2 := by
    intro reg1
    induction reg1 with
    | nil =>
      intro _
      obtain ⟨k, a⟩ := p
      rw [List.nil_append]
      unfold nameLoop
      dsimp only
      unfold nameRuleMatch at hp
      simp only [Bool.or_eq_true] at hp
      rcases hp with hd | hk
      · rw [if_pos hd]
      · by_cases hd : directNameMatch place k = true
        · rw [if_pos hd]
        · rw [if_neg hd, if_pos hk]
    | cons q rest ih =>
      intro hq
      obtain ⟨k1, a1⟩ := q
      have hqr : nameRuleMatch place k1 = false :=
        hq (k1, a1) (List.mem_cons_self _ _)
      unfold nameRuleMatch at hqr
      rw [Bool.or_eq_false_iff] at hqr
      show nameLoop place ((k1, a1) :: (rest ++ p :: reg2)) = some p.2
      unfold nameLoop
      rw [if_neg (by simp [hqr.1]), if_neg (by simp [hqr.2])]
      exact ih (fun q2 hq2 => hq q2 (List.mem_cons_of_mem _ hq2))
  unfold findAdapter
  rw [hnl reg1 hearlier]

/-- Witness for the amended C1 theorem: the first entry matches neither
rule, the second matches rule 1, and it wins. -/
theorem c1_matcher_priority_amended_witness :
    findAdapter envStructured
      ([("zzzz foobar", adapterKeyTerm)] ++
        [("downtown books", adapterDirect)]) placeDowntown
      = some adapterDirect := by
  exact c1_matcher_priority_amended envStructured placeDowntown
    [("zzzz foobar", adapterKeyTerm)] []
    ("downtown books", adapterDirect) (by decide) (by decide)

theorem charsContains_nil (l : List Char) : charsContains [] l = true := by
  cases l with
  | nil => rfl
  | cons c rest => rfl

/-- C10: a location whose display name is the empty string passes the
direct-name containment test against every adapter (every string
contains the empty string), so `findAdapter` returns the first adapter
of any non-empty registry instead of reporting no match. -/
theorem c10_empty_name_first_adapter (env : JsEnv) (key : String)
    (a : Adapter) (rest : List (String × Adapter)) (place : Place)
    (h : place.name = "") :
    findAdapter env ((key, a) :: rest) place = some a := by
  have hd : directNameMatch place key = true := by
    unfold directNameMatch
    rw [h]
    simp only [Bool.or_eq_true]
    right
    exact charsContains_nil _
  have hnl : nameLoop place ((key, a) :: rest) = some a := by
    unfold nameLoop
    rw [if_pos hd]
  unfold findAdapter
  rw [hnl]

/-- Witness for the C10 theorem: the empty-named place is matched to
the first entry of a concrete two-adapter registry. -/
theorem c10_empty_name_first_adapter_witness :
    findAdapter envStructured
      (("zzzz foobar", adapterKeyTerm) ::
        [("downtown books", adapterDirect)]) placeEmptyName
      = some adapterKeyTerm := by
  exact c10_empty_name_first_adapter envStructured "zzzz foobar"
    adapterKeyTerm [("downtown books", adapterDirect)] placeEmptyName rfl

theorem check_failure_fields (env : JsEnv) (sys : SysState) (place : Place)
    (isbn msg : String) (now : Int) (adapter : Adapter)
    (hA : findAdapter env sys.adapters place = some adapter)
    (hRL : isRateLimited sys adapter.name now = false) :
    (checkBookAvailability env sys place isbn (FetchOutcome.failure msg)
      now).1.status = some "error" ∧
    (checkBookAvailability env sys place isbn (FetchOutcome.failure msg)
      now).1.error = some ("Scraping failed: " ++ msg) := by
  unfold checkBookAvailability
  rw [hA]
  dsimp only
  rw [if_neg (by simp [hRL])]
  exact ⟨rfl, rfl⟩

theorem check_not_error_of_success (env : JsEnv) (sys : SysState)
    (place : Place) (isbn html : String) (now : Int) :
    (checkBookAvailability env sys place isbn (FetchOutcome.success html)
      now).1.status ≠ some "error" := by
  unfold checkBookAvailability
  cases hA : findAdapter env sys.adapters place with
  | none =>
    exact (by decide : (some "unknown" : Option String) ≠ some "error")
  | some adapter =>
    dsimp only
    split
    · exact (by decide : (some "rate_limited" : Option String) ≠ some "error")
    · dsimp only
      exact (goodParseStatus_ne _ (parseAvailability_status env adapter html
        (searchUrl adapter isbn)).1).2

theorem checkAvailabilityBatch_get (env : JsEnv) (sys : SysState)
    (isbn : String) :
    ∀ (checks : List (Place × FetchOutcome)) (j : Nat) (now : Int),
    (checkAvailabilityBatch env sys isbn checks now).results.get? j
      = (checks.get? j).map
        (fun c => (checkBookAvailability env sys c.1 isbn c.2 now).1) := by
  intro checks
  induction checks with
  | nil => intro j now; cases j <;> rfl
  | cons c rest ih =>
    intro j now
    cases j with
    | zero => rfl
    | succ j2 => exact ih j2 now

theorem checkAvailabilityBatch_length (env : JsEnv) (sys : SysState)
    (isbn : String) (checks : List (Place × FetchOutcome)) (now : Int) :
    (checkAvailabilityBatch env sys isbn checks now).results.length
      = checks.length := by
  unfold checkAvailabilityBatch assembleBatch
  dsimp only
  rw [List.length_map, List.length_zip, List.length_map, List.length_map]
  exact Nat.min_self _

/-- C5: batch isolation and ordering.  For a batch whose index-`t` check
fails at the fetch (having matched an adapter and passed the rate
limiter) while the fetch of every other check succeeds: the report holds
exactly one result per input location; the `j`-th result is exactly the
check of the `j`-th input (order preserved, each location independent
of the others); the `t`-th result carries status `error` with the
failure message; and no other result has status `error`. -/
theorem c5_batch_isolation (env : JsEnv) (sys : SysState) (isbn : String)
    (checks : List (Place × FetchOutcome)) (now : Int) (t : Nat)
    (pt : Place) (msg : String) (adapterT : Adapter)
    (hct : checks.get? t = some (pt, FetchOutcome.failure msg))
    (hA : findAdapter env sys.adapters pt = some adapterT)
    (hRL : isRateLimited sys adapterT.name now = false)
    (hothers : ∀ j, j ≠ t → ∀ p oc, checks.get? j = some (p, oc) →
      ∃ h2, oc = FetchOutcome.success h2) :
    (checkAvailabilityBatch env sys isbn checks now).results.length
      = checks.length ∧
    (checkAvailabilityBatch env sys isbn checks now).total_checked
      = checks.length ∧
    (∀ j p oc, checks.get? j = some (p, oc) →
      (checkAvailabilityBatch env sys isbn checks now).results.get? j
        = some (checkBookAvailability env sys p isbn oc now).1) ∧
    (∃ r, (checkAvailabilityBatch env sys isbn checks now).results.get? t
        = some r ∧
      r.status = some "error" ∧
      r.error = some ("Scraping failed: " ++ msg)) ∧
    (∀ j r, j ≠ t →
      (checkAvailabilityBatch env sys isbn checks now).results.get? j
        = some r →
      r.status ≠ some "error") := by
  refine ⟨checkAvailabilityBatch_length env sys isbn checks now, ?_, ?_, ?_, ?_⟩
  · show (checkAvailabilityBatch env sys isbn checks now).results.length
      = checks.length
    exact checkAvailabilityBatch_length env sys isbn checks now
  · intro j p oc hj
    rw [checkAvailabilityBatch_get, hj]
    rfl
  · refine ⟨(checkBookAvailability env sys pt isbn
      (FetchOutcome.failure msg) now).1, ?_, ?_, ?_⟩
    · rw [checkAvailabilityBatch_get, hct]
      rfl
    · exact (check_failure_fields env sys pt isbn msg now adapterT hA hRL).1
    · exact (check_failure_fields env sys pt isbn msg now adapterT hA hRL).2
  · intro j r hj hr
    rw [checkAvailabilityBatch_get] at hr
    cases hcj : checks.get? j with
    | none => rw [hcj] at hr; cases hr
    | some c =>
      obtain ⟨p, oc⟩ := c
      rw [hcj] at hr
      have hrr : r = (checkBookAvailability env sys p isbn oc now).1 :=
        (Option.some.inj hr).symm
      obtain ⟨h2, hoc⟩ := hothers j hj p oc hcj
      rw [hrr, hoc]
      exact check_not_error_of_success env sys p isbn h2 now

/-- Witness for the C5 theorem: three locations, the middle fetch
throws, the report has three results and the middle one is the only
error record. -/
theorem c5_batch_isolation_witness :
    (checkAvailabilityBatch envStructured sysStructured "9781234567890"
      checksW 0).results.length = checksW.length ∧
    (∃ r, (checkAvailabilityBatch envStructured sysStructured
        "9781234567890" checksW 0).results.get? 1 = some r ∧
      r.status = some "error" ∧
      r.error = some ("Scraping failed: " ++ "boom")) := by
  have hoth : ∀ j, j ≠ 1 → ∀ p oc, checksW.get? j = some (p, oc) →
      ∃ h2, oc = FetchOutcome.success h2 := by
    intro j hj p oc hg
    cases j with
    | zero =>
      simp only [checksW, List.get?, Option.some.injEq, Prod.mk.injEq] at hg
      exact ⟨"page", hg.2.symm⟩
    | succ j1 =>
      cases j1 with
      | zero => exact absurd rfl hj
      | succ j2 =>
        cases j2 with
        | zero =>
          simp only [checksW, List.get?, Option.some.injEq,
            Prod.mk.injEq] at hg
          exact ⟨"page", hg.2.symm⟩
        | succ j3 =>
          simp only [checksW, List.get?] at hg
          cases hg
  have h := c5_batch_isolation envStructured sysStructured "9781234567890"
    checksW 0 1 placeStructured "boom" adapterStructured (by decide)
    (by decide) (by decide) hoth
  exact ⟨h.1, h.2.2.2.1⟩
